import Mathlib

/-!
Shallow embedding of the scaling-decision engine of the worker-pod
autoscaler controller (`pkg/controller/controller.go`), together with the
reconciler's pure decision structure (`syncHandler`,
`updateWorkerPodAutoScalerStatus`) and the small parts of its external
interfaces it relies on (`k8s.io/apimachinery` int-or-percent strings,
`cache.SplitMetaNamespaceKey`).

Machine `int32` values are modelled as `Int` (no overflow occurs in the
regimes the theorems quantify over), and Go `float64` arithmetic is
modelled as exact rational (`ℚ`) arithmetic.  Fallible paths that the Go
code turns into a `klog.Fatalf` process abort are modelled as `Option`
results returning `none`.
-/

namespace WorkerPodAutoscaler

/-- Go `strconv.Atoi`: an optional `+`/`-` sign followed by one or more
decimal digits; anything else is an error (`none`). -/
def atoi (s : String) : Option Int :=
  let stripped : Int × List Char :=
    match s.toList with
    | '+' :: rest => (1, rest)
    | '-' :: rest => (-1, rest)
    | cs => (1, cs)
  if stripped.2 = [] then
    none
  else if stripped.2.all (fun c => c.isDigit) then
    some (stripped.1 * ((stripped.2.foldl (fun a c => a * 10 + (c.toNat - 48)) 0 : Nat) : Int))
  else
    none

/-- External dependency `k8s.io/apimachinery/pkg/util/intstr`: a value that
is either an integer or a string. -/
inductive IntOrString where
  | intVal (n : Int)
  | strVal (s : String)
deriving DecidableEq

/-- External dependency `intstr.Parse`: parse as an integer when
`strconv.Atoi` succeeds, otherwise keep the string. -/
def intstrParse (val : String) : IntOrString :=
  match atoi val with
  | some i => IntOrString.intVal i
  | none => IntOrString.strVal val

/-- External dependency `intstr.GetValueFromIntOrPercent`: an integer is
returned as is; a string has every `%` removed, the rest is parsed with
`strconv.Atoi` (failure is an error), and the result is taken as a
percentage of `total`, rounded up when `roundUp`.  This matches the spec's
"integer-or-percent string; percent is interpreted against
`currentReplicas` rounded up". -/
def getValueFromIntOrPercent (intOrPercent : IntOrString) (total : Int) (roundUp : Bool) :
    Option Int :=
  match intOrPercent with
  | IntOrString.intVal n => some n
  | IntOrString.strVal s =>
    match atoi ((s.toList.filter (fun c => c ≠ '%')).asString) with
    | some v =>
      if roundUp then some (Int.ceil (((v * total : Int) : ℚ) / 100))
      else some (Int.floor (((v * total : Int) : ℚ) / 100))
    | none => none

/-- `getMaxDisruptableWorkers` (controller.go): the largest scale-down step,
as an absolute worker count.  `none` models the `klog.Fatalf` process abort
taken when the default `maxDisruption` is unset (`nil`) or when the string
fails to parse. -/
def getMaxDisruptableWorkers (maxDisruption : Option String) (currentWorkers : Int) :
    Option Int :=
  match maxDisruption with
  | none => none
  | some s => getValueFromIntOrPercent (intstrParse s) currentWorkers true

/-- `getMinWorkers` (controller.go): the velocity floor.  Disabled when
`secondsToProcessOneJob` is `0.0`; otherwise the larger of `minWorkers` and
`⌈secondsToProcessOneJob * messagesSentPerMinute / 60⌉`. -/
def getMinWorkers (messagesSentPerMinute : ℚ) (minWorkers : Int)
    (secondsToProcessOneJob : ℚ) : Int :=
  if secondsToProcessOneJob = 0 then
    minWorkers
  else
    let workersBasedOnMessagesSent : Int :=
      Int.ceil (secondsToProcessOneJob * messagesSentPerMinute / 60)
    if workersBasedOnMessagesSent > minWorkers then workersBasedOnMessagesSent
    else minWorkers

/-- `isChangeTooSmall` (controller.go): `|desired-current| / current ≤ tolerance`. -/
def isChangeTooSmall (desired current : Int) (tolerance : ℚ) : Bool :=
  decide (|((desired - current : Int) : ℚ)| / (current : ℚ) ≤ tolerance)

/-- `convertDesiredReplicasWithRules` (controller.go): the bounding rules.
Returns `max` when `min ≥ max`; otherwise caps the scale-down step at
`maxDisruptable` and clamps into `[min, max]`. -/
def convertDesiredReplicasWithRules (current desired min max maxDisruptable : Int) : Int :=
  if min ≥ max then
    max
  else
    let desired := if current - desired > maxDisruptable then current - maxDisruptable
      else desired
    if desired > max then
      max
    else if desired < min then
      min
    else
      desired

/-- `GetDesiredWorkers` (controller.go): the pure decision function mapping
queue state and policy bounds to a desired replica count.  `none` models
the `klog.Fatalf` abort inside `getMaxDisruptableWorkers`. -/
def GetDesiredWorkers (queueName : String) (queueMessages : Int)
    (messagesSentPerMinute secondsToProcessOneJob : ℚ)
    (targetMessagesPerWorker currentWorkers idleWorkers minWorkers maxWorkers : Int)
    (maxDisruption : Option String) : Option Int :=
  let minWorkersComputed := getMinWorkers messagesSentPerMinute minWorkers secondsToProcessOneJob
  match getMaxDisruptableWorkers maxDisruption currentWorkers with
  | none => none
  | some maxDisruptableWorkers =>
    let tolerance : ℚ := 1/10
    let desiredWorkers : Int :=
      Int.ceil ((queueMessages : ℚ) / (targetMessagesPerWorker : ℚ))
    if currentWorkers = 0 then
      some (convertDesiredReplicasWithRules currentWorkers desiredWorkers
        minWorkersComputed maxWorkers maxDisruptableWorkers)
    else if queueMessages > 0 then
      if isChangeTooSmall desiredWorkers currentWorkers tolerance then
        some (convertDesiredReplicasWithRules currentWorkers currentWorkers
          minWorkersComputed maxWorkers maxDisruptableWorkers)
      else
        some (convertDesiredReplicasWithRules currentWorkers desiredWorkers
          minWorkersComputed maxWorkers maxDisruptableWorkers)
    else if messagesSentPerMinute > 0 ∧ secondsToProcessOneJob > 0 then
      some (convertDesiredReplicasWithRules currentWorkers minWorkersComputed
        minWorkersComputed maxWorkers maxDisruptableWorkers)
    else if currentWorkers = idleWorkers then
      some (convertDesiredReplicasWithRules currentWorkers 0
        minWorkersComputed maxWorkers currentWorkers)
    else
      some (convertDesiredReplicasWithRules currentWorkers minWorkersComputed
        minWorkersComputed maxWorkers maxDisruptableWorkers)

/-- Control-flow companion of `GetDesiredWorkers`: the `(desired, current)`
argument pairs of every `isChangeTooSmall` call the function performs, in
source order.  `isChangeTooSmall` is invoked only in the
`queueMessages > 0` branch, which is reached only after the cold-start
branch (`currentWorkers == 0`) has returned, and only when
`getMaxDisruptableWorkers` has not aborted the process. -/
def changeTooSmallCalls (queueName : String) (queueMessages : Int)
    (messagesSentPerMinute secondsToProcessOneJob : ℚ)
    (targetMessagesPerWorker currentWorkers idleWorkers minWorkers maxWorkers : Int)
    (maxDisruption : Option String) : List (Int × Int) :=
  match getMaxDisruptableWorkers maxDisruption currentWorkers with
  | none => []
  | some _ =>
    if currentWorkers = 0 then
      []
    else if queueMessages > 0 then
      [(Int.ceil ((queueMessages : ℚ) / (targetMessagesPerWorker : ℚ)), currentWorkers)]
    else
      []

/-- `WorkerPodAutoScalerStatus` (pkg/apis/workerpodautoscaler/v1/types.go).
`LastScaleTime` is a nullable timestamp, modelled as `Option Int` seconds;
`metav1.Time.Equal` then coincides with `Option` equality. -/
structure WorkerPodAutoScalerStatus where
  CurrentMessages : Int
  CurrentReplicas : Int
  AvailableReplicas : Int
  DesiredReplicas : Int
  LastScaleTime : Option Int
deriving DecidableEq

/-- `WorkerPodAutoScalerSpec` (types.go).  The pointer fields the
controller dereferences unconditionally (`MinReplicas`, `MaxReplicas`,
`TargetMessagesPerWorker`) are modelled as plain values; the optional ones
keep their `Option`. -/
structure WorkerPodAutoScalerSpec where
  MinReplicas : Int
  MaxReplicas : Int
  MaxDisruption : Option String
  QueueURI : String
  QueueServiceName : String
  DeploymentName : String
  ReplicaSetName : String
  TargetMessagesPerWorker : Int
  SecondsToProcessOneJob : Option ℚ
deriving DecidableEq

/-- `WorkerPodAutoScaler` (types.go). -/
structure WorkerPodAutoScaler where
  Spec : WorkerPodAutoScalerSpec
  Status : WorkerPodAutoScalerStatus
deriving DecidableEq

/-- Modelled from the spec: `GetMaxDisruption` (a `WorkerPodAutoScaler`
method of this repository whose file is not part of the sources given):
the policy's `maxDisruption` when set, otherwise the controller's default
(`defaultMaxDisruption` "is the default value for the maxDisruption in the
WPA spec"). -/
def WorkerPodAutoScaler.GetMaxDisruption (w : WorkerPodAutoScaler)
    (defaultDisruption : String) : Option String :=
  match w.Spec.MaxDisruption with
  | some s => some s
  | none => some defaultDisruption

/-- Modelled from the spec: `UnsyncedQueueMessageCount` (pkg/queue), the
`UNSYNCED` sentinel, "any value unreachable by a real queue, e.g. `-1`". -/
def UnsyncedQueueMessageCount : Int := -1

/-- Event names (controller.go constants). -/
def WokerPodAutoScalerEventAdd : String := "add"

/-- Event name for updates (controller.go constants). -/
def WokerPodAutoScalerEventUpdate : String := "update"

/-- Event name for deletes (controller.go constants). -/
def WokerPodAutoScalerEventDelete : String := "delete"

/-- `WokerPodAutoScalerEvent` (controller.go): a work-queue item. -/
structure WokerPodAutoScalerEvent where
  key : String
  name : String
deriving DecidableEq

/-- External dependency `cache.SplitMetaNamespaceKey`: zero `/` means
cluster-scoped (`("", key)`), one `/` splits namespace and name, more is an
error. -/
def splitMetaNamespaceKey (key : String) : Option (String × String) :=
  match (key.toList.splitOn '/').map List.asString with
  | [name] => some ("", name)
  | [namespacePart, name] => some (namespacePart, name)
  | _ => none

/-- The queue registry's answer to `Queues.GetQueueInfo` for the policy's
key: display name, backlog, sender velocity, idle workers. -/
structure QueueInfo where
  queueName : String
  queueMessages : Int
  messagesSentPerMinute : ℚ
  idleWorkers : Int
deriving DecidableEq

/-- The named workload (deployment or replica set) as the reconciler reads
it: `spec.replicas` and `status.availableReplicas`. -/
structure Workload where
  specReplicas : Int
  statusAvailableReplicas : Int
deriving DecidableEq

/-- The environment one `syncHandler` tick runs against: the cached policy
for the event's key, the cache lookup results for the workload named in
its spec, the registry's queue info after the event dispatch, and whether
`Queues.Add` fails (unknown provider). -/
structure ClusterEnv where
  workerPodAutoScaler : Option WorkerPodAutoScaler
  deployment : Option Workload
  replicaSet : Option Workload
  queueInfo : QueueInfo
  queuesAddErr : Bool
deriving DecidableEq

/-- Controller configuration relevant to one tick. -/
structure ControllerConfig where
  defaultMaxDisruption : String
  scaleDownDelay : Int
deriving DecidableEq

/-- Scale operations (constants of this repository referenced by
controller.go). -/
inductive ScaleOperation where
  | ScaleUp
  | ScaleDown
  | NoOp
deriving DecidableEq

/-- Modelled from the spec: `GetScaleOperation` (repository code not part
of the sources given; spec §4.4 step 8): `NoOp` when `desired == current`;
`ScaleUp` when `desired > current`; `ScaleDown` when `desired < current`
and `lastScaleTime` is null or `now − lastScaleTime ≥ scaleDownDelay`,
otherwise `NoOp` (cooldown). -/
def GetScaleOperation (queueName : String) (desiredWorkers currentWorkers : Int)
    (lastScaleTime : Option Int) (scaleDownDelay now : Int) : ScaleOperation :=
  if desiredWorkers > currentWorkers then
    ScaleOperation.ScaleUp
  else if desiredWorkers < currentWorkers then
    match lastScaleTime with
    | none => ScaleOperation.ScaleDown
    | some t => if now - t ≥ scaleDownDelay then ScaleOperation.ScaleDown
        else ScaleOperation.NoOp
  else
    ScaleOperation.NoOp

/-- `updateWorkerPodAutoScalerStatus` (controller.go) as a pure function:
`none` means the write was suppressed because the five tracked fields are
unchanged; `some w` is the deep copy submitted to the status sub-resource,
equal to the input except for the five status fields. -/
def updateWorkerPodAutoScalerStatus (desiredWorkers : Int)
    (workerPodAutoScaler : WorkerPodAutoScaler)
    (currentWorkers availableWorkers queueMessages : Int)
    (lastScaleTime : Option Int) : Option WorkerPodAutoScaler :=
  if workerPodAutoScaler.Status.CurrentReplicas = currentWorkers ∧
      workerPodAutoScaler.Status.AvailableReplicas = availableWorkers ∧
      workerPodAutoScaler.Status.DesiredReplicas = desiredWorkers ∧
      workerPodAutoScaler.Status.CurrentMessages = queueMessages ∧
      workerPodAutoScaler.Status.LastScaleTime = lastScaleTime then
    none
  else
    some { workerPodAutoScaler with
      Status := { CurrentMessages := queueMessages
                  CurrentReplicas := currentWorkers
                  AvailableReplicas := availableWorkers
                  DesiredReplicas := desiredWorkers
                  LastScaleTime := lastScaleTime } }

/-- Outcome of `syncHandler` as seen by `processNextWorkItem`: `ok` is a
nil error return, `err` a non-nil error return, `fatal` a `klog.Fatalf`
process abort. -/
inductive SyncResult where
  | ok
  | err
  | fatal
deriving DecidableEq

/-- Observable effects of one `syncHandler` tick. -/
structure SyncEffects where
  queueDeleted : Bool
  queueAdded : Bool
  computedDesired : Option Int
  workloadUpdated : Option Int
  statusWrite : Option WorkerPodAutoScaler
deriving DecidableEq

/-- No effects. -/
def emptyEffects : SyncEffects :=
  { queueDeleted := false
    queueAdded := false
    computedDesired := none
    workloadUpdated := none
    statusWrite := none }

/-- Result and effects of one tick. -/
structure SyncOutcome where
  result : SyncResult
  effects : SyncEffects
deriving DecidableEq

/-- Workload resolution in `syncHandler` (controller.go lines 368-399):
a named deployment takes precedence, then a named replica set; a named
workload missing from the cache is a retriable error; a policy naming
neither is absorbed (logged, nil returned). -/
inductive WorkloadResolution where
  | found (currentWorkers availableWorkers : Int)
  | notFound
  | missingRef
deriving DecidableEq

/-- Resolve the workload reference exactly as `syncHandler` does. -/
def resolveWorkload (workerPodAutoScaler : WorkerPodAutoScaler) (env : ClusterEnv) :
    WorkloadResolution :=
  if workerPodAutoScaler.Spec.DeploymentName ≠ "" then
    match env.deployment with
    | none => WorkloadResolution.notFound
    | some d => WorkloadResolution.found d.specReplicas d.statusAvailableReplicas
  else if workerPodAutoScaler.Spec.ReplicaSetName ≠ "" then
    match env.replicaSet with
    | none => WorkloadResolution.notFound
    | some r => WorkloadResolution.found r.specReplicas r.statusAvailableReplicas
  else
    WorkloadResolution.missingRef

/-- Registry effects of the event dispatch (controller.go lines 406-427):
`add` and `update` call `Queues.Add`, `delete` calls `Queues.Delete`, any
other event name falls through the `switch`. -/
def eventDispatchEffects (event : WokerPodAutoScalerEvent) : SyncEffects :=
  if event.name = WokerPodAutoScalerEventAdd ∨ event.name = WokerPodAutoScalerEventUpdate then
    { emptyEffects with queueAdded := true }
  else if event.name = WokerPodAutoScalerEventDelete then
    { emptyEffects with queueDeleted := true }
  else
    emptyEffects

/-- The tail of `syncHandler` after the policy and workload have been
resolved: event dispatch into the registry, queue-info read, skip checks,
decision, scale operation, workload update and status write. -/
def syncHandlerRest (c : ControllerConfig) (now : Int) (env : ClusterEnv)
    (event : WokerPodAutoScalerEvent) (workerPodAutoScaler : WorkerPodAutoScaler)
    (currentWorkers availableWorkers : Int) : SyncOutcome :=
  let secondsToProcessOneJob : ℚ :=
    match workerPodAutoScaler.Spec.SecondsToProcessOneJob with
    | some s => s
    | none => 0
  let eff0 : SyncEffects := eventDispatchEffects event
  if (event.name = WokerPodAutoScalerEventAdd ∨ event.name = WokerPodAutoScalerEventUpdate) ∧
      env.queuesAddErr then
    { result := SyncResult.err, effects := eff0 }
  else if env.queueInfo.queueName = "" then
    { result := SyncResult.ok, effects := eff0 }
  else if env.queueInfo.queueMessages = UnsyncedQueueMessageCount then
    { result := SyncResult.ok, effects := eff0 }
  else
    match GetDesiredWorkers env.queueInfo.queueName env.queueInfo.queueMessages
        env.queueInfo.messagesSentPerMinute secondsToProcessOneJob
        workerPodAutoScaler.Spec.TargetMessagesPerWorker currentWorkers
        env.queueInfo.idleWorkers workerPodAutoScaler.Spec.MinReplicas
        workerPodAutoScaler.Spec.MaxReplicas
        (workerPodAutoScaler.GetMaxDisruption c.defaultMaxDisruption) with
    | none => { result := SyncResult.fatal, effects := eff0 }
    | some desiredWorkers =>
      let op := GetScaleOperation env.queueInfo.queueName desiredWorkers currentWorkers
        workerPodAutoScaler.Status.LastScaleTime c.scaleDownDelay now
      let doScale : Bool :=
        op = ScaleOperation.ScaleUp ∨ op = ScaleOperation.ScaleDown
      let lastScaleTime : Option Int :=
        if doScale then some now else workerPodAutoScaler.Status.LastScaleTime
      let statusWrite := updateWorkerPodAutoScalerStatus desiredWorkers workerPodAutoScaler
        currentWorkers availableWorkers env.queueInfo.queueMessages lastScaleTime
      { result := SyncResult.ok
        effects := { eff0 with
          computedDesired := some desiredWorkers
          workloadUpdated := if doScale then some desiredWorkers else none
          statusWrite := statusWrite } }

/-- `syncHandler` (controller.go): one reconciliation tick as a pure
function of its environment.  Invalid keys are absorbed; a policy no
longer in the cache triggers registry deletion and is absorbed; then the
workload is resolved and `syncHandlerRest` runs. -/
def syncHandler (c : ControllerConfig) (now : Int) (env : ClusterEnv)
    (event : WokerPodAutoScalerEvent) : SyncOutcome :=
  match splitMetaNamespaceKey event.key with
  | none => { result := SyncResult.ok, effects := emptyEffects }
  | some _ =>
    match env.workerPodAutoScaler with
    | none =>
      { result := SyncResult.ok, effects := { emptyEffects with queueDeleted := true } }
    | some workerPodAutoScaler =>
      match resolveWorkload workerPodAutoScaler env with
      | WorkloadResolution.notFound =>
        { result := SyncResult.err, effects := emptyEffects }
      | WorkloadResolution.missingRef =>
        { result := SyncResult.ok, effects := emptyEffects }
      | WorkloadResolution.found currentWorkers availableWorkers =>
        syncHandlerRest c now env event workerPodAutoScaler currentWorkers availableWorkers

/-- What `processNextWorkItem` (controller.go) does with the work-queue
item given `syncHandler`'s result: a nil error is `Forget`ten, a non-nil
error is re-enqueued with `AddRateLimited` (exponential backoff); a fatal
abort never reaches the work queue. -/
inductive Disposition where
  | forget
  | requeueWithBackoff
  | processAborted
deriving DecidableEq

/-- Map a sync result to the work-queue disposition performed by
`processNextWorkItem`. -/
def dispositionOf : SyncResult → Disposition
  | SyncResult.ok => Disposition.forget
  | SyncResult.err => Disposition.requeueWithBackoff
  | SyncResult.fatal => Disposition.processAborted

lemma intCeil_eval {q : ℚ} {n : Int} (h1 : (n : ℚ) - 1 < q) (h2 : q ≤ (n : ℚ)) :
    Int.ceil q = n :=
  Int.ceil_eq_iff.mpr ⟨h1, h2⟩

lemma getMinWorkers_of_zero (spm : ℚ) (mw : Int) : getMinWorkers spm mw 0 = mw := by
  simp [getMinWorkers]

lemma getMinWorkers_of_ne (spm spj : ℚ) (mw v : Int) (hne : spj ≠ 0)
    (hv : Int.ceil (spj * spm / 60) = v) :
    getMinWorkers spm mw spj = max mw v := by
  simp only [getMinWorkers, if_neg hne, hv]
  split_ifs <;> omega

lemma getMaxDisruptableWorkers_int (s : String) (c v : Int)
    (hp : intstrParse s = IntOrString.intVal v) :
    getMaxDisruptableWorkers (some s) c = some v := by
  simp [getMaxDisruptableWorkers, getValueFromIntOrPercent, hp]

lemma getMaxDisruptableWorkers_percent (s : String) (c v n : Int)
    (hv : getMaxDisruptableWorkers (some s) c = some (Int.ceil (((v * c : Int) : ℚ) / 100)))
    (hn : Int.ceil (((v * c : Int) : ℚ) / 100) = n) :
    getMaxDisruptableWorkers (some s) c = some n := by
  rw [hv, hn]

lemma getDesiredWorkers_unfold (queueName : String) (queueMessages : Int)
    (messagesSentPerMinute secondsToProcessOneJob : ℚ)
    (targetMessagesPerWorker currentWorkers idleWorkers minWorkers maxWorkers : Int)
    (maxDisruption : Option String) (m : Int)
    (hmd : getMaxDisruptableWorkers maxDisruption currentWorkers = some m) :
    GetDesiredWorkers queueName queueMessages messagesSentPerMinute secondsToProcessOneJob
        targetMessagesPerWorker currentWorkers idleWorkers minWorkers maxWorkers
        maxDisruption =
      (if currentWorkers = 0 then
        some (convertDesiredReplicasWithRules currentWorkers
          (Int.ceil ((queueMessages : ℚ) / (targetMessagesPerWorker : ℚ)))
          (getMinWorkers messagesSentPerMinute minWorkers secondsToProcessOneJob)
          maxWorkers m)
      else if queueMessages > 0 then
        if isChangeTooSmall
            (Int.ceil ((queueMessages : ℚ) / (targetMessagesPerWorker : ℚ)))
            currentWorkers (1/10) then
          some (convertDesiredReplicasWithRules currentWorkers currentWorkers
            (getMinWorkers messagesSentPerMinute minWorkers secondsToProcessOneJob)
            maxWorkers m)
        else
          some (convertDesiredReplicasWithRules currentWorkers
            (Int.ceil ((queueMessages : ℚ) / (targetMessagesPerWorker : ℚ)))
            (getMinWorkers messagesSentPerMinute minWorkers secondsToProcessOneJob)
            maxWorkers m)
      else if messagesSentPerMinute > 0 ∧ secondsToProcessOneJob > 0 then
        some (convertDesiredReplicasWithRules currentWorkers
          (getMinWorkers messagesSentPerMinute minWorkers secondsToProcessOneJob)
          (getMinWorkers messagesSentPerMinute minWorkers secondsToProcessOneJob)
          maxWorkers m)
      else if currentWorkers = idleWorkers then
        some (convertDesiredReplicasWithRules currentWorkers 0
          (getMinWorkers messagesSentPerMinute minWorkers secondsToProcessOneJob)
          maxWorkers currentWorkers)
      else
        some (convertDesiredReplicasWithRules currentWorkers
          (getMinWorkers messagesSentPerMinute minWorkers secondsToProcessOneJob)
          (getMinWorkers messagesSentPerMinute minWorkers secondsToProcessOneJob)
          maxWorkers m)) := by
  unfold GetDesiredWorkers
  rw [hmd]

lemma convertDesiredReplicasWithRules_between (current desired mn mx maxDisruptable : Int) :
    (mn < mx →
      mn ≤ convertDesiredReplicasWithRules current desired mn mx maxDisruptable ∧
        convertDesiredReplicasWithRules current desired mn mx maxDisruptable ≤ mx) ∧
    (mx ≤ mn → convertDesiredReplicasWithRules current desired mn mx maxDisruptable = mx) := by
  simp only [convertDesiredReplicasWithRules]
  split_ifs <;> constructor <;> intro h <;> omega

lemma convertDesiredReplicasWithRules_cap (current desired mn mx maxDisruptable : Int)
    (hcur : current ≤ mx)
    (hlt : convertDesiredReplicasWithRules current desired mn mx maxDisruptable < current) :
    current - convertDesiredReplicasWithRules current desired mn mx maxDisruptable ≤
      maxDisruptable := by
  simp only [convertDesiredReplicasWithRules] at hlt ⊢
  split_ifs at hlt ⊢ <;> omega

lemma convertDesiredReplicasWithRules_floor (current mn mx maxDisruptable : Int) :
    min mx mn ≤ convertDesiredReplicasWithRules current mn mn mx maxDisruptable := by
  simp only [convertDesiredReplicasWithRules]
  split_ifs <;> omega

/-- C1: on every input on which `GetDesiredWorkers` returns a value, the
returned desired count lies between the velocity-floor-adjusted minimum
(`getMinWorkers`) and `maxWorkers` whenever that adjusted minimum is below
`maxWorkers`; otherwise it equals `maxWorkers`. -/
theorem getDesiredWorkers_bounded (queueName : String) (queueMessages : Int)
    (messagesSentPerMinute secondsToProcessOneJob : ℚ)
    (targetMessagesPerWorker currentWorkers idleWorkers minWorkers maxWorkers d : Int)
    (maxDisruption : Option String)
    (h : GetDesiredWorkers queueName queueMessages messagesSentPerMinute
      secondsToProcessOneJob targetMessagesPerWorker currentWorkers idleWorkers
      minWorkers maxWorkers maxDisruption = some d) :
    (getMinWorkers messagesSentPerMinute minWorkers secondsToProcessOneJob < maxWorkers →
      getMinWorkers messagesSentPerMinute minWorkers secondsToProcessOneJob ≤ d ∧
        d ≤ maxWorkers) ∧
    (maxWorkers ≤ getMinWorkers messagesSentPerMinute minWorkers secondsToProcessOneJob →
      d = maxWorkers) := by
  rcases hmd : getMaxDisruptableWorkers maxDisruption currentWorkers with _ | m
  · unfold GetDesiredWorkers at h
    rw [hmd] at h
    simp at h
  · rw [getDesiredWorkers_unfold _ _ _ _ _ _ _ _ _ _ _ hmd] at h
    split_ifs at h <;>
      (rw [Option.some_inj] at h; subst h;
        exact convertDesiredReplicasWithRules_between _ _ _ _ _)

lemma getDesiredWorkersEvalMassive :
    GetDesiredWorkers "q" 0 0 0 100 5 5 0 10 (some "3") = some 0 := by
  have hmd : getMaxDisruptableWorkers (some "3") 5 = some 3 :=
    getMaxDisruptableWorkers_int _ _ _ (by decide)
  rw [getDesiredWorkers_unfold _ _ _ _ _ _ _ _ _ _ _ hmd]
  rw [if_neg (by decide : ¬ (5 : Int) = 0)]
  rw [if_neg (by decide : ¬ (0 : Int) > 0)]
  rw [if_neg (by simp : ¬ ((0 : ℚ) > 0 ∧ (0 : ℚ) > 0))]
  rw [if_pos (rfl : (5 : Int) = 5)]
  rw [getMinWorkers_of_zero]
  decide

lemma getMinWorkersZeroBelowTen : getMinWorkers 0 0 0 < 10 := by
  rw [getMinWorkers_of_zero]
  decide

/-- Witness for C1: at the massive-scale-down input the bound is
meaningful and holds. -/
theorem getDesiredWorkers_bounded_witness :
    getMinWorkers 0 0 0 ≤ 0 ∧ (0 : Int) ≤ 10 :=
  (getDesiredWorkers_bounded "q" 0 0 0 100 5 5 0 10 0 (some "3")
    getDesiredWorkersEvalMassive).1 getMinWorkersZeroBelowTen

lemma maxDisruptTenPctOfTwenty : getMaxDisruptableWorkers (some "10%") 20 = some 2 :=
  getMaxDisruptableWorkers_percent "10%" 20 10 2 rfl
    (intCeil_eval (by norm_num) (by norm_num))

lemma getDesiredWorkersEvalSmallBacklog :
    GetDesiredWorkers "otpsms" 10 10 (3/10) 200 20 0 0 20 (some "10%") = some 18 := by
  have hraw : Int.ceil (((10 : Int) : ℚ) / ((200 : Int) : ℚ)) = 1 :=
    intCeil_eval (by norm_num) (by norm_num)
  have hsmall : isChangeTooSmall 1 20 (1/10) = false := by
    simp only [isChangeTooSmall]
    rw [decide_eq_false_iff_not]
    norm_num
  rw [getDesiredWorkers_unfold _ _ _ _ _ _ _ _ _ _ _ maxDisruptTenPctOfTwenty]
  rw [if_neg (by decide : ¬ (20 : Int) = 0)]
  rw [if_pos (by decide : (10 : Int) > 0)]
  rw [hraw, hsmall]
  rw [if_neg (by decide : ¬ false = true)]
  rw [getMinWorkers_of_ne 10 (3/10) 0 1 (by norm_num)
    (intCeil_eval (by norm_num) (by norm_num))]
  decide

/-- C6: the concrete scenario `messages=10, sendRate=10, secPerJob=0.3,
target=200, current=20, idle=0, min=0, max=20, maxDisruption="10%"`
yields a desired count of 18. -/
theorem getDesiredWorkers_scenario_small_backlog :
    GetDesiredWorkers "otpsms" 10 10 (3/10) 200 20 0 0 20 (some "10%") = some 18 :=
  getDesiredWorkersEvalSmallBacklog

lemma getDesiredWorkersEvalCapViolation :
    GetDesiredWorkers "q" 1 0 0 1 100 0 0 10 (some "1") = some 10 := by
  have hmd : getMaxDisruptableWorkers (some "1") 100 = some 1 := by decide
  have hraw : Int.ceil (((1 : Int) : ℚ) / ((1 : Int) : ℚ)) = 1 :=
    intCeil_eval (by norm_num) (by norm_num)
  have hsmall : isChangeTooSmall 1 100 (1/10) = false := by
    simp only [isChangeTooSmall]
    rw [decide_eq_false_iff_not]
    norm_num
  rw [getDesiredWorkers_unfold _ _ _ _ _ _ _ _ _ _ _ hmd]
  rw [if_neg (by decide : ¬ (100 : Int) = 0)]
  rw [if_pos (by decide : (1 : Int) > 0)]
  rw [hraw, hsmall]
  rw [if_neg (by decide : ¬ false = true)]
  rw [getMinWorkers_of_zero]
  decide

/-- C2 counterexample: at `messages=1, target=1, current=100, idle=0,
min=0, max=10, maxDisruption="1"` the backlog branch (not the massive
scale-down branch, since `messages > 0`) returns `10 < 100` although
`current − desired = 90` exceeds the parsed disruption cap `1`: clamping
to `max` overrides the cap when `current > max`. -/
theorem disruption_cap_counterexample :
    GetDesiredWorkers "q" 1 0 0 1 100 0 0 10 (some "1") = some 10 ∧
    getMaxDisruptableWorkers (some "1") 100 = some 1 ∧
    (1 : Int) > 0 ∧ (10 : Int) < 100 ∧ ¬ ((100 : Int) - 10 ≤ 1) :=
  ⟨getDesiredWorkersEvalCapViolation, by decide, by decide, by decide, by decide⟩

/-- C2 (amended): on every input with `currentWorkers ≤ maxWorkers` whose
branch is not the massive scale-down branch, a returned desired count
strictly below `currentWorkers` is within the disruption cap:
`currentWorkers − desired ≤ maxDisruptableWorkers`. -/
theorem disruption_cap_of_current_le_max (queueName : String) (queueMessages : Int)
    (messagesSentPerMinute secondsToProcessOneJob : ℚ)
    (targetMessagesPerWorker currentWorkers idleWorkers minWorkers maxWorkers d : Int)
    (maxDisruption : Option String) (m : Int)
    (h : GetDesiredWorkers queueName queueMessages messagesSentPerMinute
      secondsToProcessOneJob targetMessagesPerWorker currentWorkers idleWorkers
      minWorkers maxWorkers maxDisruption = some d)
    (hmd : getMaxDisruptableWorkers maxDisruption currentWorkers = some m)
    (hcur : currentWorkers ≤ maxWorkers)
    (hnm : ¬ (¬ queueMessages > 0 ∧
      ¬ (messagesSentPerMinute > 0 ∧ secondsToProcessOneJob > 0) ∧
      ¬ currentWorkers = 0 ∧ currentWorkers = idleWorkers))
    (hlt : d < currentWorkers) :
    currentWorkers - d ≤ m := by
  rw [getDesiredWorkers_unfold _ _ _ _ _ _ _ _ _ _ _ hmd] at h
  by_cases h1 : currentWorkers = 0
  · rw [if_pos h1, Option.some_inj] at h
    subst h
    exact convertDesiredReplicasWithRules_cap _ _ _ _ _ hcur hlt
  · rw [if_neg h1] at h
    by_cases h2 : queueMessages > 0
    · rw [if_pos h2] at h
      by_cases h3 : isChangeTooSmall
          (Int.ceil ((queueMessages : ℚ) / (targetMessagesPerWorker : ℚ)))
          currentWorkers (1/10) = true
      · rw [if_pos h3, Option.some_inj] at h
        subst h
        exact convertDesiredReplicasWithRules_cap _ _ _ _ _ hcur hlt
      · rw [if_neg h3, Option.some_inj] at h
        subst h
        exact convertDesiredReplicasWithRules_cap _ _ _ _ _ hcur hlt
    · rw [if_neg h2] at h
      by_cases h4 : messagesSentPerMinute > 0 ∧ secondsToProcessOneJob > 0
      · rw [if_pos h4, Option.some_inj] at h
        subst h
        exact convertDesiredReplicasWithRules_cap _ _ _ _ _ hcur hlt
      · rw [if_neg h4] at h
        by_cases h5 : currentWorkers = idleWorkers
        · exact absurd ⟨h2, h4, h1, h5⟩ hnm
        · rw [if_neg h5, Option.some_inj] at h
          subst h
          exact convertDesiredReplicasWithRules_cap _ _ _ _ _ hcur hlt

/-- Witness for C2 (amended): the small-backlog scenario scales down by
exactly the cap. -/
theorem disruption_cap_of_current_le_max_witness : (20 : Int) - 18 ≤ 2 :=
  disruption_cap_of_current_le_max "otpsms" 10 10 (3/10) 200 20 0 0 20 18 (some "10%") 2
    getDesiredWorkersEvalSmallBacklog maxDisruptTenPctOfTwenty (by decide)
    (fun hcon => hcon.1 (by decide : (10 : Int) > 0)) (by decide)

/-- C3: with a positive backlog, positive current workers and a raw
desired count within 10% of the current count, the result is the current
count passed through the bounding rules. -/
theorem stability_band_pins_to_current (queueName : String) (queueMessages : Int)
    (messagesSentPerMinute secondsToProcessOneJob : ℚ)
    (targetMessagesPerWorker currentWorkers idleWorkers minWorkers maxWorkers : Int)
    (maxDisruption : Option String)
    (h0 : 0 < queueMessages) (hc : 0 < currentWorkers)
    (hband : |((Int.ceil ((queueMessages : ℚ) / (targetMessagesPerWorker : ℚ)) -
        currentWorkers : Int) : ℚ)| / (currentWorkers : ℚ) ≤ 1/10) :
    GetDesiredWorkers queueName queueMessages messagesSentPerMinute
        secondsToProcessOneJob targetMessagesPerWorker currentWorkers idleWorkers
        minWorkers maxWorkers maxDisruption =
      (getMaxDisruptableWorkers maxDisruption currentWorkers).map (fun m =>
        convertDesiredReplicasWithRules currentWorkers currentWorkers
          (getMinWorkers messagesSentPerMinute minWorkers secondsToProcessOneJob)
          maxWorkers m) := by
  have htrue : isChangeTooSmall
      (Int.ceil ((queueMessages : ℚ) / (targetMessagesPerWorker : ℚ)))
      currentWorkers (1/10) = true := by
    simp only [isChangeTooSmall]
    rw [decide_eq_true_eq]
    exact hband
  cases hmd : getMaxDisruptableWorkers maxDisruption currentWorkers with
  | none =>
    unfold GetDesiredWorkers
    rw [hmd]
    rfl
  | some m =>
    rw [getDesiredWorkers_unfold _ _ _ _ _ _ _ _ _ _ _ hmd]
    rw [if_neg (by omega : ¬ currentWorkers = 0), if_pos h0, if_pos htrue]
    rfl

lemma stabilityBandConcrete :
    |((Int.ceil (((4100 : Int) : ℚ) / ((200 : Int) : ℚ)) - 20 : Int) : ℚ)| /
      ((20 : Int) : ℚ) ≤ 1/10 := by
  rw [(intCeil_eval (by norm_num) (by norm_num) :
    Int.ceil (((4100 : Int) : ℚ) / ((200 : Int) : ℚ)) = 21)]
  norm_num

/-- Witness for C3 at a concrete input inside the band. -/
theorem stability_band_pins_to_current_witness :
    GetDesiredWorkers "q" 4100 0 0 200 20 0 1 30 (some "100%") =
      (getMaxDisruptableWorkers (some "100%") 20).map (fun m =>
        convertDesiredReplicasWithRules 20 20 (getMinWorkers 0 1 0) 30 m) :=
  stability_band_pins_to_current "q" 4100 0 0 200 20 0 1 30 (some "100%")
    (by decide) (by decide) stabilityBandConcrete

/-- C4: with no backlog but positive sender velocity and processing time,
the returned desired count is at least the velocity floor
`⌈secondsToProcessOneJob * messagesSentPerMinute / 60⌉` clamped into
`[minWorkers, maxWorkers]`. -/
theorem velocity_floor_lower_bound (queueName : String) (queueMessages : Int)
    (messagesSentPerMinute secondsToProcessOneJob : ℚ)
    (targetMessagesPerWorker currentWorkers idleWorkers minWorkers maxWorkers d : Int)
    (maxDisruption : Option String)
    (hq : queueMessages = 0) (hspm : 0 < messagesSentPerMinute)
    (hspj : 0 < secondsToProcessOneJob) (hc : 0 < currentWorkers)
    (h : GetDesiredWorkers queueName queueMessages messagesSentPerMinute
      secondsToProcessOneJob targetMessagesPerWorker currentWorkers idleWorkers
      minWorkers maxWorkers maxDisruption = some d) :
    min maxWorkers (max minWorkers
      (Int.ceil (secondsToProcessOneJob * messagesSentPerMinute / 60))) ≤ d := by
  rcases hmd : getMaxDisruptableWorkers maxDisruption currentWorkers with _ | m
  · unfold GetDesiredWorkers at h
    rw [hmd] at h
    simp at h
  · rw [getDesiredWorkers_unfold _ _ _ _ _ _ _ _ _ _ _ hmd] at h
    rw [if_neg (by omega : ¬ currentWorkers = 0),
      if_neg (by omega : ¬ queueMessages > 0), if_pos ⟨hspm, hspj⟩,
      Option.some_inj] at h
    subst h
    rw [getMinWorkers_of_ne messagesSentPerMinute secondsToProcessOneJob minWorkers _
      (ne_of_gt hspj) rfl]
    exact convertDesiredReplicasWithRules_floor _ _ _ _

lemma getDesiredWorkersEvalVelocity :
    GetDesiredWorkers "q" 0 1 1 50 7 0 2 9 (some "4") = some 3 := by
  have hmd : getMaxDisruptableWorkers (some "4") 7 = some 4 := by decide
  rw [getDesiredWorkers_unfold _ _ _ _ _ _ _ _ _ _ _ hmd]
  rw [if_neg (by decide : ¬ (7 : Int) = 0)]
  rw [if_neg (by decide : ¬ (0 : Int) > 0)]
  rw [if_pos (by norm_num : (1 : ℚ) > 0 ∧ (1 : ℚ) > 0)]
  rw [getMinWorkers_of_ne 1 1 2 1 (by norm_num)
    (intCeil_eval (by norm_num) (by norm_num))]
  decide

/-- Witness for C4 at a concrete input. -/
theorem velocity_floor_lower_bound_witness :
    min 9 (max 2 (Int.ceil ((1 : ℚ) * 1 / 60))) ≤ (3 : Int) :=
  velocity_floor_lower_bound "q" 0 1 1 50 7 0 2 9 3 (some "4") rfl one_pos one_pos
    (by decide) getDesiredWorkersEvalVelocity

/-- C5: with positive current workers, no backlog, no velocity signal and
every worker idle, the decision is a desired count of `0` bounded with the
disruption cap replaced by `currentWorkers` (the bypass), still clamped by
the bounding rules. -/
theorem massive_scale_down_bypasses_cap (queueName : String) (queueMessages : Int)
    (messagesSentPerMinute secondsToProcessOneJob : ℚ)
    (targetMessagesPerWorker currentWorkers idleWorkers minWorkers maxWorkers : Int)
    (maxDisruption : Option String)
    (hc : 0 < currentWorkers) (hq : queueMessages = 0)
    (hnv : ¬ (messagesSentPerMinute > 0 ∧ secondsToProcessOneJob > 0))
    (hidle : currentWorkers = idleWorkers) :
    GetDesiredWorkers queueName queueMessages messagesSentPerMinute
        secondsToProcessOneJob targetMessagesPerWorker currentWorkers idleWorkers
        minWorkers maxWorkers maxDisruption =
      (getMaxDisruptableWorkers maxDisruption currentWorkers).map (fun _ =>
        convertDesiredReplicasWithRules currentWorkers 0
          (getMinWorkers messagesSentPerMinute minWorkers secondsToProcessOneJob)
          maxWorkers currentWorkers) := by
  cases hmd : getMaxDisruptableWorkers maxDisruption currentWorkers with
  | none =>
    unfold GetDesiredWorkers
    rw [hmd]
    rfl
  | some m =>
    rw [getDesiredWorkers_unfold _ _ _ _ _ _ _ _ _ _ _ hmd]
    rw [if_neg (by omega : ¬ currentWorkers = 0),
      if_neg (by omega : ¬ queueMessages > 0), if_neg hnv, if_pos hidle]
    rfl

/-- Witness for C5: the idle-fleet scenario. -/
theorem massive_scale_down_bypasses_cap_witness :
    GetDesiredWorkers "q" 0 0 0 100 5 5 0 10 (some "10%") =
      (getMaxDisruptableWorkers (some "10%") 5).map (fun _ =>
        convertDesiredReplicasWithRules 5 0 (getMinWorkers 0 0 0) 10 5) :=
  massive_scale_down_bypasses_cap "q" 0 0 0 100 5 5 0 10 (some "10%")
    (by decide) rfl (by simp) rfl

/-- C10: every `isChangeTooSmall` call `GetDesiredWorkers` performs has a
non-zero `currentWorkers` second argument (the cold-start branch returns
before the backlog branch), so the division by `currentWorkers` inside the
stability-band test is well-defined. -/
theorem change_check_current_nonzero (queueName : String) (queueMessages : Int)
    (messagesSentPerMinute secondsToProcessOneJob : ℚ)
    (targetMessagesPerWorker currentWorkers idleWorkers minWorkers maxWorkers : Int)
    (maxDisruption : Option String) (p : Int × Int)
    (hp : p ∈ changeTooSmallCalls queueName queueMessages messagesSentPerMinute
      secondsToProcessOneJob targetMessagesPerWorker currentWorkers idleWorkers
      minWorkers maxWorkers maxDisruption) :
    p.2 ≠ 0 ∧ ((p.2 : Int) : ℚ) ≠ 0 := by
  unfold changeTooSmallCalls at hp
  rcases hmd : getMaxDisruptableWorkers maxDisruption currentWorkers with _ | m <;>
    rw [hmd] at hp
  · simp at hp
  · split_ifs at hp with h1 h2
    · simp at hp
    · rw [List.mem_singleton] at hp
      subst hp
      exact ⟨h1, Int.cast_ne_zero.mpr h1⟩
    · simp at hp

/-- Witness for C10: the backlog branch records exactly one call, at the
non-zero current worker count. -/
theorem change_check_current_nonzero_witness :
    (20 : Int) ≠ 0 ∧ (((20 : Int) : ℚ) ≠ 0) :=
  change_check_current_nonzero "q" 10 0 0 200 20 0 0 20 (some "1")
    (Int.ceil (((10 : Int) : ℚ) / ((200 : Int) : ℚ)), 20)
    (List.mem_singleton.mpr rfl)

lemma eventDispatchEffects_computedDesired (event : WokerPodAutoScalerEvent) :
    (eventDispatchEffects event).computedDesired = none := by
  unfold eventDispatchEffects
  split_ifs <;> rfl

lemma eventDispatchEffects_workloadUpdated (event : WokerPodAutoScalerEvent) :
    (eventDispatchEffects event).workloadUpdated = none := by
  unfold eventDispatchEffects
  split_ifs <;> rfl

lemma eventDispatchEffects_statusWrite (event : WokerPodAutoScalerEvent) :
    (eventDispatchEffects event).statusWrite = none := by
  unfold eventDispatchEffects
  split_ifs <;> rfl

/-- C7: a tick whose registry record reports the UNSYNCED sentinel skips
the scaling decision: `syncHandler` returns nil (so the item is forgotten,
not re-enqueued with backoff), computes no desired count, updates no
workload and writes no status. -/
theorem unsynced_record_skips_tick (c : ControllerConfig) (now : Int) (env : ClusterEnv)
    (event : WokerPodAutoScalerEvent) (nn : String × String) (w : WorkerPodAutoScaler)
    (currentWorkers availableWorkers : Int)
    (hkey : splitMetaNamespaceKey event.key = some nn)
    (hwpa : env.workerPodAutoScaler = some w)
    (hres : resolveWorkload w env = WorkloadResolution.found currentWorkers availableWorkers)
    (hadd : env.queuesAddErr = false)
    (hqn : ¬ env.queueInfo.queueName = "")
    (hqu : env.queueInfo.queueMessages = UnsyncedQueueMessageCount) :
    (syncHandler c now env event).result = SyncResult.ok ∧
    (syncHandler c now env event).effects.computedDesired = none ∧
    (syncHandler c now env event).effects.workloadUpdated = none ∧
    (syncHandler c now env event).effects.statusWrite = none ∧
    dispositionOf (syncHandler c now env event).result = Disposition.forget := by
  have hsync : syncHandler c now env event =
      syncHandlerRest c now env event w currentWorkers availableWorkers := by
    unfold syncHandler
    rw [hkey]
    dsimp only
    rw [hwpa]
    dsimp only
    rw [hres]
  rw [hsync]
  simp only [syncHandlerRest, hadd]
  rw [if_neg (by simp)]
  rw [if_neg hqn]
  rw [if_pos hqu]
  exact ⟨rfl, eventDispatchEffects_computedDesired event,
    eventDispatchEffects_workloadUpdated event, eventDispatchEffects_statusWrite event, rfl⟩

/-- Witness for C7 at a concrete environment whose record is UNSYNCED. -/
theorem unsynced_record_skips_tick_witness :
    (syncHandler ⟨"10%", 120⟩ 0
        ⟨some ⟨⟨1, 5, none, "u", "sqs", "d", "", 100, none⟩, ⟨0, 0, 0, 0, none⟩⟩,
          some ⟨3, 2⟩, none, ⟨"q", -1, 0, 0⟩, false⟩
        ⟨"ns/n", "update"⟩).result = SyncResult.ok ∧
    (syncHandler ⟨"10%", 120⟩ 0
        ⟨some ⟨⟨1, 5, none, "u", "sqs", "d", "", 100, none⟩, ⟨0, 0, 0, 0, none⟩⟩,
          some ⟨3, 2⟩, none, ⟨"q", -1, 0, 0⟩, false⟩
        ⟨"ns/n", "update"⟩).effects.computedDesired = none ∧
    (syncHandler ⟨"10%", 120⟩ 0
        ⟨some ⟨⟨1, 5, none, "u", "sqs", "d", "", 100, none⟩, ⟨0, 0, 0, 0, none⟩⟩,
          some ⟨3, 2⟩, none, ⟨"q", -1, 0, 0⟩, false⟩
        ⟨"ns/n", "update"⟩).effects.workloadUpdated = none ∧
    (syncHandler ⟨"10%", 120⟩ 0
        ⟨some ⟨⟨1, 5, none, "u", "sqs", "d", "", 100, none⟩, ⟨0, 0, 0, 0, none⟩⟩,
          some ⟨3, 2⟩, none, ⟨"q", -1, 0, 0⟩, false⟩
        ⟨"ns/n", "update"⟩).effects.statusWrite = none ∧
    dispositionOf (syncHandler ⟨"10%", 120⟩ 0
        ⟨some ⟨⟨1, 5, none, "u", "sqs", "d", "", 100, none⟩, ⟨0, 0, 0, 0, none⟩⟩,
          some ⟨3, 2⟩, none, ⟨"q", -1, 0, 0⟩, false⟩
        ⟨"ns/n", "update"⟩).result = Disposition.forget :=
  unsynced_record_skips_tick ⟨"10%", 120⟩ 0
    ⟨some ⟨⟨1, 5, none, "u", "sqs", "d", "", 100, none⟩, ⟨0, 0, 0, 0, none⟩⟩,
      some ⟨3, 2⟩, none, ⟨"q", -1, 0, 0⟩, false⟩
    ⟨"ns/n", "update"⟩ ("ns", "n")
    ⟨⟨1, 5, none, "u", "sqs", "d", "", 100, none⟩, ⟨0, 0, 0, 0, none⟩⟩ 3 2
    (by decide) rfl (by decide) rfl (by decide) rfl

/-- C8: the status write is suppressed exactly when all five tracked
fields already match the stored status; otherwise the submitted object is
the stored policy with only the five status fields replaced. -/
theorem update_status_idempotent (desiredWorkers : Int) (w : WorkerPodAutoScaler)
    (currentWorkers availableWorkers queueMessages : Int) (lastScaleTime : Option Int) :
    (updateWorkerPodAutoScalerStatus desiredWorkers w currentWorkers availableWorkers
        queueMessages lastScaleTime = none ↔
      (w.Status.CurrentReplicas = currentWorkers ∧
        w.Status.AvailableReplicas = availableWorkers ∧
        w.Status.DesiredReplicas = desiredWorkers ∧
        w.Status.CurrentMessages = queueMessages ∧
        w.Status.LastScaleTime = lastScaleTime)) ∧
    (¬ (w.Status.CurrentReplicas = currentWorkers ∧
        w.Status.AvailableReplicas = availableWorkers ∧
        w.Status.DesiredReplicas = desiredWorkers ∧
        w.Status.CurrentMessages = queueMessages ∧
        w.Status.LastScaleTime = lastScaleTime) →
      updateWorkerPodAutoScalerStatus desiredWorkers w currentWorkers availableWorkers
          queueMessages lastScaleTime =
        some { w with Status :=
          { CurrentMessages := queueMessages
            CurrentReplicas := currentWorkers
            AvailableReplicas := availableWorkers
            DesiredReplicas := desiredWorkers
            LastScaleTime := lastScaleTime } }) := by
  unfold updateWorkerPodAutoScalerStatus
  constructor
  · split_ifs with hcond
    · simp [hcond]
    · simp [hcond]
  · intro hcond
    rw [if_neg hcond]

/-- Witness for C8: a changed status is written with only the five fields
replaced. -/
theorem update_status_idempotent_witness :
    updateWorkerPodAutoScalerStatus 3
        ⟨⟨0, 1, none, "", "", "", "", 1, none⟩, ⟨0, 0, 0, 0, none⟩⟩ 2 1 5 none =
      some ⟨⟨0, 1, none, "", "", "", "", 1, none⟩, ⟨5, 2, 1, 3, none⟩⟩ :=
  (update_status_idempotent 3
    ⟨⟨0, 1, none, "", "", "", "", 1, none⟩, ⟨0, 0, 0, 0, none⟩⟩ 2 1 5 none).2
    (by decide)

/-- C9: a policy naming neither a deployment nor a replica set fails
non-retriably: `syncHandler` absorbs the error and returns nil with no
effects, so `processNextWorkItem` forgets the item instead of re-enqueueing
it with backoff. -/
theorem missing_workload_ref_forgotten (c : ControllerConfig) (now : Int) (env : ClusterEnv)
    (event : WokerPodAutoScalerEvent) (nn : String × String) (w : WorkerPodAutoScaler)
    (hkey : splitMetaNamespaceKey event.key = some nn)
    (hwpa : env.workerPodAutoScaler = some w)
    (hd : w.Spec.DeploymentName = "") (hr : w.Spec.ReplicaSetName = "") :
    (syncHandler c now env event).result = SyncResult.ok ∧
    (syncHandler c now env event).effects = emptyEffects ∧
    dispositionOf (syncHandler c now env event).result = Disposition.forget := by
  have hres : resolveWorkload w env = WorkloadResolution.missingRef := by
    unfold resolveWorkload
    rw [if_neg (by simp [hd]), if_neg (by simp [hr])]
  have hsync : syncHandler c now env event = ⟨SyncResult.ok, emptyEffects⟩ := by
    unfold syncHandler
    rw [hkey]
    dsimp only
    rw [hwpa]
    dsimp only
    rw [hres]
  rw [hsync]
  exact ⟨rfl, rfl, rfl⟩

/-- Witness for C9 at a concrete policy with both workload names empty. -/
theorem missing_workload_ref_forgotten_witness :
    (syncHandler ⟨"10%", 120⟩ 0
        ⟨some ⟨⟨1, 5, none, "u", "sqs", "", "", 100, none⟩, ⟨0, 0, 0, 0, none⟩⟩,
          none, none, ⟨"", 0, 0, 0⟩, false⟩
        ⟨"ns/n", "add"⟩).result = SyncResult.ok ∧
    (syncHandler ⟨"10%", 120⟩ 0
        ⟨some ⟨⟨1, 5, none, "u", "sqs", "", "", 100, none⟩, ⟨0, 0, 0, 0, none⟩⟩,
          none, none, ⟨"", 0, 0, 0⟩, false⟩
        ⟨"ns/n", "add"⟩).effects = emptyEffects ∧
    dispositionOf (syncHandler ⟨"10%", 120⟩ 0
        ⟨some ⟨⟨1, 5, none, "u", "sqs", "", "", 100, none⟩, ⟨0, 0, 0, 0, none⟩⟩,
          none, none, ⟨"", 0, 0, 0⟩, false⟩
        ⟨"ns/n", "add"⟩).result = Disposition.forget :=
  missing_workload_ref_forgotten ⟨"10%", 120⟩ 0
    ⟨some ⟨⟨1, 5, none, "u", "sqs", "", "", 100, none⟩, ⟨0, 0, 0, 0, none⟩⟩,
      none, none, ⟨"", 0, 0, 0⟩, false⟩
    ⟨"ns/n", "add"⟩ ("ns", "n")
    ⟨⟨1, 5, none, "u", "sqs", "", "", 100, none⟩, ⟨0, 0, 0, 0, none⟩⟩
    (by decide) rfl rfl rfl

end WorkerPodAutoscaler
